import Mathlib

/-!
# in.delayer: reputation store, privilege-scoped worker, gate and classifier

A shallow embedding of `src/in.delayer.c`.

* The SQLite database file is a `Store`: the rows of table
  `hosts(host TEXT PRIMARY KEY, sleep INTEGER)` whose `sleep` column holds an integer.
* Every operating-system and SQLite call whose result the program tests is an
  oracle field: the program is a function of those results and of the store.
* What a process does that is visible from outside (sleeping, opening the
  database, executing the protected program) is recorded, in order, in a trace.
* Diagnostic logging (`myerr`, `myerrx`, `mywarn`, `mywarnx`) is not recorded; the
  two `err` functions are modelled by their `exit (eval)`.
-/

namespace Delayer

/-! ## Constants (lines 39-45) -/

def SLEEP_FOR_ERROR : Nat := 30
/-- The literal spliced into the SQL text of the upsert. -/
def MAX_SLEEP_TIME_TEXT : Int := 60
def MAX_SLEEP_TIME_VAL : Int := 60
def DELAY_AFTER_TIMEOUT : Nat := 10
def GOOD_SEGS_IN_THRESHOLD : Nat := 16
def GOOD_TIME_THRESHOLD : Int := 300
def GOOD_BYTES_THRESHOLD : Nat := 4096

/-- The value `8` the program compares `tcpi_state` with (line 243). -/
def TCP_CLOSE_WAIT : Nat := 8

def SQLITE_OK : Int := 0
def SQLITE_ROW : Int := 100
def SQLITE_DONE : Int := 101

/-- The enum of lines 63-68. -/
inductive db_mode
  | DB_SLEEP
  | DB_RECORD_BAD
  | DB_RECORD_GOOD
  deriving DecidableEq, Repr

/-! ## The reputation store and the three SQL statements -/

/-- The rows `(host, sleep)` of table `hosts`. -/
abbrev Store := List (String × Int)

/-- The rows of the store whose key is `host`. -/
def rows_of (host : String) (store : Store) : Store :=
  store.filter (fun r => r.1 == host)

/-- `SELECT sleep FROM hosts WHERE host = ?`: the first matching row, if any. -/
def sql_select (host : String) (store : Store) : Option Int :=
  (store.find? (fun r => r.1 == host)).map (fun r => r.2)

/-- `INSERT INTO hosts(host,sleep) VALUES(?,1) ON CONFLICT(host) DO UPDATE SET
sleep=min(sleep+1,60)`. -/
def sql_upsert (host : String) (store : Store) : Store :=
  if store.any (fun r => r.1 == host) then
    store.map (fun r => if r.1 == host then (r.1, min (r.2 + 1) MAX_SLEEP_TIME_TEXT) else r)
  else
    store ++ [(host, 1)]

/-- `DELETE FROM hosts WHERE host=?`. -/
def sql_delete (host : String) (store : Store) : Store :=
  store.filter (fun r => !(r.1 == host))

/-- The invariant of the data model: every stored penalty lies in `[1, 60]`. -/
def penalty_in_range (store : Store) : Prop :=
  ∀ r ∈ store, 1 ≤ r.2 ∧ r.2 ≤ 60

/-! ## Oracles -/

/-- The results of the identity calls of one `db_access`: `setgid gid` and
`setuid uid` are what the two calls of line 136 return, `setuid_dropped uid` is
what `setuid (uid)` returns once both have succeeded (line 143 asks for uid 0). -/
structure IdCalls where
  setgid : Int → Int
  setuid : Int → Int
  setuid_dropped : Int → Int

/-- Failures an SQLite call can report. -/
inductive SqlFault
  | ERROR
  | BUSY
  | READONLY
  | IOERR
  | CORRUPT
  | CANTOPEN
  | NOTADB
  deriving DecidableEq, Repr

/-- The primary result code of a failure. -/
def SqlFault.code : SqlFault → Int
  | .ERROR => 1
  | .BUSY => 5
  | .READONLY => 8
  | .IOERR => 10
  | .CORRUPT => 11
  | .CANTOPEN => 14
  | .NOTADB => 26

/-- For each SQLite call of one `db_access`, whether it fails and how. -/
structure SqlCalls where
  open_fault : Option SqlFault
  pragma_prepare_fault : Option SqlFault
  pragma_step_fault : Option SqlFault
  prepare_fault : Option SqlFault
  step_fault : Option SqlFault

/-- The result code of a call that returns `ok` unless it fails. -/
def result_code (ok : Int) : Option SqlFault → Int
  | none => ok
  | some f => f.code

/-! ## Observable behaviour -/

inductive Event
  /-- The call `sleep (secs)`. -/
  | sleep (secs : Nat)
  /-- The call `sqlite3_open_v2`, read-only or read-write. -/
  | db_open (readonly : Bool)
  /-- The call `execve (argv[4], ...)` in the second child. -/
  | exec
  deriving DecidableEq, Repr

/-- The seconds slept, call by call. -/
def slept : List Event → List Nat
  | [] => []
  | .sleep n :: es => n :: slept es
  | _ :: es => slept es

/-- The total number of seconds slept. -/
def total_sleep (tr : List Event) : Nat := (slept tr).sum

/-- How a function that may call `exit` ends. -/
inductive Outcome
  | ret (value : Int)
  | exit (status : Int)
  deriving DecidableEq, Repr

/-- The exit status of a process whose `main` ends with `return f (...)`. -/
def Outcome.status : Outcome → Int
  | .ret v => v
  | .exit s => s

structure DbOut where
  outcome : Outcome
  store : Store
  trace : List Event
  deriving DecidableEq, Repr

/-! ## `db_access` (lines 132-216) -/

/-- `sqlite3_column_int`: the low 32 bits of the stored 64-bit integer, as an `int`. -/
def sqlite3_column_int (v : Int) : Int :=
  (v + 2 ^ 31) % 2 ^ 32 - 2 ^ 31

/-- `sqlite3_step` on the SELECT of line 172, followed by lines 178-179: the
result code and the new value of `sleep_time`. -/
def step_select (fault : Option SqlFault) (host : String) (store : Store) : Int × Int :=
  match fault with
  | some f => (f.code, 0)
  | none =>
    match sql_select host store with
    | some v => (SQLITE_ROW, sqlite3_column_int v)
    | none => (SQLITE_DONE, 0)

/-- Lines 208-215: close, clamp, sleep and return 0. -/
def db_finish (sleep_time : Int) (store : Store) (tr : List Event) : DbOut :=
  if sleep_time > 0 then
    let sleep_time := if sleep_time > MAX_SLEEP_TIME_VAL then MAX_SLEEP_TIME_VAL else sleep_time
    { outcome := .ret 0, store := store, trace := tr ++ [.sleep sleep_time.toNat] }
  else
    { outcome := .ret 0, store := store, trace := tr }

/-- The function `db_access`; `store` is the content of the database file `db_name`. -/
def db_access (host : String) (db_uid db_gid : Int) (mode : db_mode)
    (id : IdCalls) (sql : SqlCalls) (store : Store) : DbOut :=
  if id.setgid db_gid < 0 ∨ id.setuid db_uid < 0 then
    { outcome := .ret 1, store := store,
      trace := if mode = .DB_SLEEP then [.sleep SLEEP_FOR_ERROR] else [] }
  else if db_uid > 0 ∧ id.setuid_dropped 0 = 0 then
    { outcome := .ret 1, store := store,
      trace := if mode = .DB_SLEEP then [.sleep SLEEP_FOR_ERROR] else [] }
  else
    let tr := [Event.db_open (decide (mode = .DB_SLEEP))]
    if result_code SQLITE_OK sql.open_fault ≠ SQLITE_OK then
      { outcome := .exit 1, store := store, trace := tr }
    else if mode ≠ .DB_SLEEP ∧ result_code SQLITE_OK sql.pragma_prepare_fault ≠ SQLITE_OK then
      { outcome := .exit 1, store := store, trace := tr }
    else if mode ≠ .DB_SLEEP ∧ result_code SQLITE_ROW sql.pragma_step_fault ≠ SQLITE_ROW then
      { outcome := .exit 1, store := store, trace := tr }
    else
      match mode with
      | .DB_SLEEP =>
        if result_code SQLITE_OK sql.prepare_fault ≠ SQLITE_OK then
          { outcome := .exit 1, store := store, trace := tr }
        else
          db_finish (step_select sql.step_fault host store).2 store tr
      | .DB_RECORD_BAD =>
        if result_code SQLITE_OK sql.prepare_fault ≠ SQLITE_OK then
          { outcome := .exit 1, store := store, trace := tr }
        else if result_code SQLITE_DONE sql.step_fault ≠ SQLITE_DONE then
          { outcome := .exit 1, store := store, trace := tr }
        else
          db_finish 0 (sql_upsert host store) tr
      | .DB_RECORD_GOOD =>
        if result_code SQLITE_OK sql.prepare_fault ≠ SQLITE_OK then
          { outcome := .exit 1, store := store, trace := tr }
        else if result_code SQLITE_DONE sql.step_fault ≠ SQLITE_DONE then
          { outcome := .exit 1, store := store, trace := tr }
        else
          db_finish 0 (sql_delete host store) tr

/-! ## `main` (lines 218-286) -/

/-- The inputs of one connection-handling instance: the command line, and the
result of every call `main` makes, in program order. -/
structure MainEnv where
  argc : Int
  /-- The value `atoi (argv[2])`. -/
  db_uid : Int
  /-- The value `atoi (argv[3])`. -/
  db_gid : Int
  getpeername_rc : Int
  getnameinfo_rc : Int
  /-- The numeric host name `getnameinfo` writes. -/
  host : String
  /-- What the first `fork` returns to the parent. -/
  fork1_pid : Int
  gate_id : IdCalls
  gate_sql : SqlCalls
  waitpid1_rc : Int
  getsockopt1_rc : Int
  /-- The field `tcpi_state` after the first `getsockopt`. -/
  tcpi_state : Nat
  /-- What the second `fork` returns to the parent. -/
  fork2_pid : Int
  clock1_rc : Int
  t1_sec : Int
  waitpid2_rc : Int
  /-- The wait status of the protected program. -/
  wstatus : Int
  clock2_rc : Int
  t2_sec : Int
  getsockopt2_rc : Int
  /-- The field `tcpi_segs_in` after the second `getsockopt`. -/
  tcpi_segs_in : Nat
  /-- The field `tcpi_bytes_acked` after the second `getsockopt`. -/
  tcpi_bytes_acked : Nat
  upd_id : IdCalls
  upd_sql : SqlCalls

/-- Lines 273-285: the mode of the final `db_access`, reached by `goto bad` or
`goto good`. The counters are unsigned, and the two readings of the monotonic
clock are far from the bounds of `time_t`, so no comparison here overflows. -/
def verdict_mode (tcpi_segs_in : Nat) (t1_sec t2_sec : Int) (tcpi_bytes_acked : Nat) :
    db_mode :=
  if tcpi_segs_in < GOOD_SEGS_IN_THRESHOLD then .DB_RECORD_BAD
  else if t2_sec - t1_sec ≥ GOOD_TIME_THRESHOLD then .DB_RECORD_GOOD
  else if tcpi_bytes_acked ≥ GOOD_BYTES_THRESHOLD then .DB_RECORD_GOOD
  else .DB_RECORD_BAD

/-- What one instance (the parent and its two children) has done when the
parent ends. -/
structure Run where
  /-- The exit status of the parent. -/
  status : Int
  store : Store
  trace : List Event
  deriving DecidableEq, Repr

/-- The function `main`. The first child runs `db_access` in mode `DB_SLEEP`
while the parent waits for it; the second child calls `execve`. -/
def main (e : MainEnv) (store : Store) : Run :=
  if e.argc < 5 then { status := 1, store := store, trace := [] }
  else if e.getpeername_rc < 0 then { status := 1, store := store, trace := [] }
  else if e.getnameinfo_rc < 0 then { status := 1, store := store, trace := [] }
  else if e.fork1_pid < 0 then { status := 1, store := store, trace := [] }
  else
    let gate := db_access e.host e.db_uid e.db_gid .DB_SLEEP e.gate_id e.gate_sql store
    if e.waitpid1_rc < 0 then { status := 1, store := gate.store, trace := gate.trace }
    else if e.getsockopt1_rc < 0 then
      { status := 1, store := gate.store, trace := gate.trace }
    else if e.tcpi_state = TCP_CLOSE_WAIT then
      { status := 1, store := gate.store,
        trace := gate.trace ++ [.sleep DELAY_AFTER_TIMEOUT] }
    else if e.fork2_pid < 0 then
      { status := 1, store := gate.store, trace := gate.trace }
    else
      let tr := gate.trace ++ [Event.exec]
      if e.clock1_rc < 0 then { status := 1, store := gate.store, trace := tr }
      else if e.waitpid2_rc < 0 then { status := 1, store := gate.store, trace := tr }
      else if e.clock2_rc < 0 then { status := 1, store := gate.store, trace := tr }
      else if e.getsockopt2_rc < 0 then { status := 1, store := gate.store, trace := tr }
      else
        let upd := db_access e.host e.db_uid e.db_gid
          (verdict_mode e.tcpi_segs_in e.t1_sec e.t2_sec e.tcpi_bytes_acked)
          e.upd_id e.upd_sql gate.store
        { status := upd.outcome.status, store := upd.store, trace := tr ++ upd.trace }

/-! ## Conditions on the oracles -/

/-- The privilege drop of lines 136-149 goes through. -/
def drop_ok (db_uid db_gid : Int) (id : IdCalls) : Prop :=
  0 ≤ id.setgid db_gid ∧ 0 ≤ id.setuid db_uid ∧ (0 < db_uid → id.setuid_dropped 0 ≠ 0)

instance (db_uid db_gid : Int) (id : IdCalls) : Decidable (drop_ok db_uid db_gid id) := by
  unfold drop_ok; infer_instance

/-- No SQLite call fails. -/
def sql_ok (sql : SqlCalls) : Prop :=
  sql.open_fault = none ∧ sql.pragma_prepare_fault = none ∧ sql.pragma_step_fault = none ∧
    sql.prepare_fault = none ∧ sql.step_fault = none

instance (sql : SqlCalls) : Decidable (sql_ok sql) := by
  unfold sql_ok; infer_instance

/-- Every call up to and including the first `fork` succeeds: `main` reaches the
gate (lines 221-233). -/
def reaches_gate (e : MainEnv) : Prop :=
  5 ≤ e.argc ∧ 0 ≤ e.getpeername_rc ∧ 0 ≤ e.getnameinfo_rc ∧ 0 ≤ e.fork1_pid

instance (e : MainEnv) : Decidable (reaches_gate e) := by
  unfold reaches_gate; infer_instance

/-- The parent gets as far as reading `tcpi_state` at line 243. -/
def reaches_inspection (e : MainEnv) : Prop :=
  reaches_gate e ∧ 0 ≤ e.waitpid1_rc ∧ 0 ≤ e.getsockopt1_rc

instance (e : MainEnv) : Decidable (reaches_inspection e) := by
  unfold reaches_inspection; infer_instance

/-- The parent gets as far as line 273: the peer has not half-closed and every
later call succeeds. -/
def reaches_verdict (e : MainEnv) : Prop :=
  reaches_inspection e ∧ e.tcpi_state ≠ TCP_CLOSE_WAIT ∧ 0 ≤ e.fork2_pid ∧ 0 ≤ e.clock1_rc ∧
    0 ≤ e.waitpid2_rc ∧ 0 ≤ e.clock2_rc ∧ 0 ≤ e.getsockopt2_rc

instance (e : MainEnv) : Decidable (reaches_verdict e) := by
  unfold reaches_verdict; infer_instance

/-- Successive calls of `db_access` for one host in one mode, each with its own
oracles, threading the store. -/
def db_access_seq (host : String) (db_uid db_gid : Int) (mode : db_mode) :
    List (IdCalls × SqlCalls) → Store → Store
  | [], store => store
  | c :: cs, store =>
    db_access_seq host db_uid db_gid mode cs
      (db_access host db_uid db_gid mode c.1 c.2 store).store

/-! ## Concrete inputs -/

/-- Identity calls of a process that starts as root and drops to an ordinary
user: both drops succeed and uid 0 cannot be taken back. -/
def id_dropping : IdCalls :=
  { setgid := fun _ => 0, setuid := fun _ => 0, setuid_dropped := fun _ => -1 }

/-- Identity calls of a process that is root and stays root: every call succeeds. -/
def id_root : IdCalls :=
  { setgid := fun _ => 0, setuid := fun _ => 0, setuid_dropped := fun _ => 0 }

/-- Identity calls of a process that may not change its group. -/
def id_denied : IdCalls :=
  { setgid := fun _ => -1, setuid := fun _ => -1, setuid_dropped := fun _ => -1 }

def sql_fine : SqlCalls :=
  { open_fault := none, pragma_prepare_fault := none, pragma_step_fault := none,
    prepare_fault := none, step_fault := none }

/-- A connection from `1.2.3.4` on which five segments arrive and every call
succeeds; the service runs for two seconds. -/
def env_five_segments : MainEnv :=
  { argc := 6, db_uid := 65534, db_gid := 65534,
    getpeername_rc := 0, getnameinfo_rc := 0, host := "1.2.3.4",
    fork1_pid := 4001, gate_id := id_dropping, gate_sql := sql_fine,
    waitpid1_rc := 4001, getsockopt1_rc := 0, tcpi_state := 1,
    fork2_pid := 4002, clock1_rc := 0, t1_sec := 1000,
    waitpid2_rc := 4002, wstatus := 0, clock2_rc := 0, t2_sec := 1002,
    getsockopt2_rc := 0, tcpi_segs_in := 5, tcpi_bytes_acked := 0,
    upd_id := id_dropping, upd_sql := sql_fine }

instance (store : Store) : Decidable (penalty_in_range store) := by
  unfold penalty_in_range; infer_instance

/-- One call of `db_access` by some instance: its arguments and its oracles. -/
structure DbCall where
  host : String
  db_uid : Int
  db_gid : Int
  mode : db_mode
  id : IdCalls
  sql : SqlCalls

/-- The store after a sequence of `db_access` calls, in order. -/
def db_access_run : List DbCall → Store → Store
  | [], store => store
  | c :: cs, store =>
    db_access_run cs (db_access c.host c.db_uid c.db_gid c.mode c.id c.sql store).store

/-- An instance in which the peer has not half-closed and every call, privilege
drop and store operation succeeds. -/
def healthy (e : MainEnv) : Prop :=
  reaches_verdict e ∧ drop_ok e.db_uid e.db_gid e.gate_id ∧ sql_ok e.gate_sql ∧
    drop_ok e.db_uid e.db_gid e.upd_id ∧ sql_ok e.upd_sql

instance (e : MainEnv) : Decidable (healthy e) := by
  unfold healthy; infer_instance

theorem rows_of_nil_iff_any (host : String) (store : Store) :
    rows_of host store = [] ↔ store.any (fun r => r.1 == host) = false := by
  induction store with
  | nil => simp [rows_of]
  | cons r rs ih =>
    by_cases h : r.1 = host
    · simp [rows_of, List.filter_cons, h]
    · simp only [rows_of] at ih
      simp [rows_of, List.filter_cons, h, ih]

theorem sql_select_none_iff (host : String) (store : Store) :
    sql_select host store = none ↔ rows_of host store = [] := by
  induction store with
  | nil => simp [sql_select, rows_of]
  | cons r rs ih =>
    by_cases h : r.1 = host
    · simp [sql_select, rows_of, List.find?_cons, List.filter_cons, h]
    · simp only [sql_select, rows_of] at ih
      simp [sql_select, rows_of, List.find?_cons, List.filter_cons, h, ih]

theorem sql_select_of_rows (host : String) (store : Store) (p : Int) (rest : Store)
    (h : rows_of host store = (host, p) :: rest) : sql_select host store = some p := by
  induction store with
  | nil => simp [rows_of] at h
  | cons r rs ih =>
    by_cases hr : r.1 = host
    · simp only [rows_of, List.filter_cons, hr, beq_self_eq_true, if_true] at h
      have : r = (host, p) := (List.cons.inj h).1
      simp [sql_select, List.find?_cons, this]
    · have h2 : rows_of host rs = (host, p) :: rest := by
        simpa [rows_of, List.filter_cons, hr] using h
      have := ih h2
      simp only [sql_select] at this
      simp [sql_select, List.find?_cons, hr, this]

theorem rows_of_append (host : String) (s t : Store) :
    rows_of host (s ++ t) = rows_of host s ++ rows_of host t := by
  simp [rows_of]

theorem sql_upsert_absent (host : String) (store : Store) (h : rows_of host store = []) :
    sql_upsert host store = store ++ [(host, 1)] := by
  have := (rows_of_nil_iff_any host store).1 h
  simp [sql_upsert, this]

theorem rows_of_map_bump (host : String) (store : Store) :
    rows_of host
        (store.map (fun r => if r.1 == host then (r.1, min (r.2 + 1) MAX_SLEEP_TIME_TEXT) else r)) =
      (rows_of host store).map (fun r => (r.1, min (r.2 + 1) 60)) := by
  induction store with
  | nil => rfl
  | cons r rs ih =>
    simp only [rows_of, MAX_SLEEP_TIME_TEXT, beq_iff_eq] at ih
    by_cases hr : r.1 = host
    · simp [rows_of, MAX_SLEEP_TIME_TEXT, List.filter_cons, hr, ih]
    · simp [rows_of, MAX_SLEEP_TIME_TEXT, List.filter_cons, hr, ih]

theorem rows_of_upsert_present (host : String) (store : Store) (p : Int) (rest : Store)
    (h : rows_of host store = (host, p) :: rest) :
    rows_of host (sql_upsert host store) =
      ((host, p) :: rest).map (fun r => (r.1, min (r.2 + 1) 60)) := by
  have hany : store.any (fun r => r.1 == host) = true := by
    cases hb : store.any (fun r => r.1 == host)
    · have := (rows_of_nil_iff_any host store).2 hb
      simp [this] at h
    · rfl
  rw [← h, ← rows_of_map_bump]
  simp only [sql_upsert, hany, if_true]

theorem rows_of_delete (host : String) (store : Store) :
    rows_of host (sql_delete host store) = [] := by
  simp [rows_of, sql_delete, List.filter_filter]

theorem sql_delete_absent (host : String) (store : Store) (h : rows_of host store = []) :
    sql_delete host store = store := by
  have := (rows_of_nil_iff_any host store).1 h
  simp only [sql_delete, List.filter_eq_self]
  intro r hr
  have h2 := List.any_eq_false.1 this r hr
  simpa using h2

theorem penalty_in_range_upsert (host : String) (store : Store)
    (h : penalty_in_range store) : penalty_in_range (sql_upsert host store) := by
  unfold sql_upsert
  split
  · intro r hr
    obtain ⟨q, hq, rfl⟩ := List.mem_map.1 hr
    have := h q hq
    split
    · simp only [MAX_SLEEP_TIME_TEXT]; omega
    · exact this
  · intro r hr
    rcases List.mem_append.1 hr with hr | hr
    · exact h r hr
    · simp only [List.mem_singleton] at hr
      subst hr
      simp

theorem penalty_in_range_delete (host : String) (store : Store)
    (h : penalty_in_range store) : penalty_in_range (sql_delete host store) := by
  intro r hr
  exact h r (List.mem_filter.1 hr).1

theorem sql_upsert_append_single (host : String) (store : Store) (p : Int)
    (h : rows_of host store = []) :
    sql_upsert host (store ++ [(host, p)]) = store ++ [(host, min (p + 1) 60)] := by
  have hany := (rows_of_nil_iff_any host store).1 h
  have hno : ∀ r ∈ store, ¬ r.1 = host := by
    intro r hr
    simpa using List.any_eq_false.1 hany r hr
  have hmap : store.map
      (fun r => if r.1 == host then (r.1, min (r.2 + 1) MAX_SLEEP_TIME_TEXT) else r) = store := by
    conv_rhs => rw [← List.map_id store]
    apply List.map_congr_left
    intro r hr
    simp [hno r hr]
  simp only [sql_upsert, List.any_append, List.any_cons, beq_self_eq_true, Bool.true_or,
    Bool.or_true, if_true, List.map_append, hmap]
  simp [MAX_SLEEP_TIME_TEXT]

/-! ### The function `db_access` -/

theorem drop_conds {db_uid db_gid : Int} {id : IdCalls} (h : drop_ok db_uid db_gid id) :
    ¬ (id.setgid db_gid < 0 ∨ id.setuid db_uid < 0) ∧
      ¬ (db_uid > 0 ∧ id.setuid_dropped 0 = 0) := by
  obtain ⟨h1, h2, h3⟩ := h
  refine ⟨by omega, ?_⟩
  rintro ⟨hu, h0⟩
  exact h3 hu h0

theorem db_access_bad_ok (host : String) (db_uid db_gid : Int) (id : IdCalls) (sql : SqlCalls)
    (store : Store) (hd : drop_ok db_uid db_gid id) (hs : sql_ok sql) :
    db_access host db_uid db_gid .DB_RECORD_BAD id sql store =
      { outcome := .ret 0, store := sql_upsert host store, trace := [.db_open false] } := by
  obtain ⟨c1, c2⟩ := drop_conds hd
  obtain ⟨s1, s2, s3, s4, s5⟩ := hs
  simp [db_access, c1, c2, s1, s2, s3, s4, s5, result_code, db_finish]

theorem db_access_good_ok (host : String) (db_uid db_gid : Int) (id : IdCalls) (sql : SqlCalls)
    (store : Store) (hd : drop_ok db_uid db_gid id) (hs : sql_ok sql) :
    db_access host db_uid db_gid .DB_RECORD_GOOD id sql store =
      { outcome := .ret 0, store := sql_delete host store, trace := [.db_open false] } := by
  obtain ⟨c1, c2⟩ := drop_conds hd
  obtain ⟨s1, s2, s3, s4, s5⟩ := hs
  simp [db_access, c1, c2, s1, s2, s3, s4, s5, result_code, db_finish]

theorem db_access_sleep_ok (host : String) (db_uid db_gid : Int) (id : IdCalls) (sql : SqlCalls)
    (store : Store) (hd : drop_ok db_uid db_gid id) (hs : sql_ok sql) :
    db_access host db_uid db_gid .DB_SLEEP id sql store =
      db_finish (step_select none host store).2 store [.db_open true] := by
  obtain ⟨c1, c2⟩ := drop_conds hd
  obtain ⟨s1, s2, s3, s4, s5⟩ := hs
  simp [db_access, c1, c2, s1, s2, s3, s4, s5, result_code]

@[simp] theorem db_finish_store (t : Int) (store : Store) (tr : List Event) :
    (db_finish t store tr).store = store := by
  unfold db_finish; split <;> rfl

@[simp] theorem db_finish_outcome (t : Int) (store : Store) (tr : List Event) :
    (db_finish t store tr).outcome = .ret 0 := by
  unfold db_finish; split <;> rfl

theorem db_access_sleep_store (host : String) (db_uid db_gid : Int) (id : IdCalls)
    (sql : SqlCalls) (store : Store) :
    (db_access host db_uid db_gid .DB_SLEEP id sql store).store = store := by
  simp only [db_access]
  split_ifs <;> simp only [db_finish_store]

theorem db_access_store_cases (host : String) (db_uid db_gid : Int) (mode : db_mode)
    (id : IdCalls) (sql : SqlCalls) (store : Store) :
    (db_access host db_uid db_gid mode id sql store).store = store ∨
    (db_access host db_uid db_gid mode id sql store).store = sql_upsert host store ∨
    (db_access host db_uid db_gid mode id sql store).store = sql_delete host store := by
  cases mode <;> simp only [db_access] <;> split_ifs <;> simp

theorem slept_append (a b : List Event) : slept (a ++ b) = slept a ++ slept b := by
  induction a with
  | nil => rfl
  | cons x xs ih => cases x <;> simp [slept, ih]

theorem total_sleep_finish (t : Int) (store : Store) (tr : List Event) :
    total_sleep (db_finish t store tr).trace = total_sleep tr + (min (max t 0) 60).toNat := by
  unfold db_finish total_sleep
  split
  · rename_i h
    simp only [slept_append, slept, List.sum_append, List.sum_cons, List.sum_nil,
      MAX_SLEEP_TIME_VAL, add_zero]
    congr 2
    split <;> omega
  · rename_i h
    have : min (max t 0) 60 = 0 := by omega
    simp [this]

theorem column_int_of_int32 (v : Int) (h1 : -2 ^ 31 ≤ v) (h2 : v < 2 ^ 31) :
    sqlite3_column_int v = v := by
  unfold sqlite3_column_int
  omega

theorem db_access_drop_failed (host : String) (db_uid db_gid : Int) (mode : db_mode)
    (id : IdCalls) (sql : SqlCalls) (store : Store)
    (h : id.setgid db_gid < 0 ∨ id.setuid db_uid < 0 ∨ (0 < db_uid ∧ id.setuid_dropped 0 = 0)) :
    db_access host db_uid db_gid mode id sql store =
      { outcome := .ret 1, store := store,
        trace := if mode = .DB_SLEEP then [.sleep 30] else [] } := by
  by_cases h1 : id.setgid db_gid < 0 ∨ id.setuid db_uid < 0
  · simp only [db_access, h1, if_true, SLEEP_FOR_ERROR]
  · have h2 : db_uid > 0 ∧ id.setuid_dropped 0 = 0 := by
      rcases h with h | h | h
      · exact absurd (Or.inl h) h1
      · exact absurd (Or.inr h) h1
      · exact h
    simp only [db_access, h1, h2, if_false, and_self, if_true, SLEEP_FOR_ERROR]

theorem not_drop_ok_iff (db_uid db_gid : Int) (id : IdCalls) :
    ¬ drop_ok db_uid db_gid id ↔
      (id.setgid db_gid < 0 ∨ id.setuid db_uid < 0 ∨
        (0 < db_uid ∧ id.setuid_dropped 0 = 0)) := by
  unfold drop_ok
  constructor
  · intro h
    by_contra hc
    push_neg at hc
    exact h ⟨hc.1, hc.2.1, hc.2.2⟩
  · rintro (h | h | ⟨h, h0⟩) ⟨a, b, c⟩
    · omega
    · omega
    · exact c h h0

theorem db_finish_trace_events (t : Int) (store : Store) (ro : Bool) :
    ∀ ev ∈ (db_finish t store [.db_open ro]).trace,
      (∃ n, ev = Event.sleep n) ∨ ev = Event.db_open ro := by
  intro ev hev
  unfold db_finish at hev
  split at hev
  · simp only [List.singleton_append, List.mem_cons, List.not_mem_nil, or_false] at hev
    rcases hev with hev | hev
    · exact Or.inr hev
    · exact Or.inl ⟨_, hev⟩
  · simp only [List.mem_singleton] at hev
    exact Or.inr hev

theorem db_access_trace_events (host : String) (db_uid db_gid : Int) (mode : db_mode)
    (id : IdCalls) (sql : SqlCalls) (store : Store) :
    ∀ ev ∈ (db_access host db_uid db_gid mode id sql store).trace,
      (∃ n, ev = Event.sleep n) ∨ ev = Event.db_open (decide (mode = .DB_SLEEP)) := by
  have hsingle : ∀ (ro : Bool) (ev : Event), ev ∈ [Event.db_open ro] →
      (∃ n, ev = Event.sleep n) ∨ ev = Event.db_open ro := by
    intro ro ev hev
    exact Or.inr (List.mem_singleton.1 hev)
  have hsleep : ∀ (ro : Bool) (n : Nat) (ev : Event), ev ∈ [Event.sleep n] →
      (∃ n, ev = Event.sleep n) ∨ ev = Event.db_open ro := by
    intro ro n ev hev
    exact Or.inl ⟨n, List.mem_singleton.1 hev⟩
  have hnil : ∀ (ro : Bool) (ev : Event), ev ∈ ([] : List Event) →
      (∃ n, ev = Event.sleep n) ∨ ev = Event.db_open ro := by
    intro ro ev hev
    cases hev
  cases mode <;> simp only [db_access] <;> split_ifs <;>
    first
      | exact hsleep _ _
      | exact hnil _
      | exact hsingle _
      | exact db_finish_trace_events _ _ _

theorem db_access_no_exec (host : String) (db_uid db_gid : Int) (mode : db_mode)
    (id : IdCalls) (sql : SqlCalls) (store : Store) :
    Event.exec ∉ (db_access host db_uid db_gid mode id sql store).trace := by
  intro h
  rcases db_access_trace_events host db_uid db_gid mode id sql store _ h with ⟨n, hn⟩ | hn
  · cases hn
  · cases hn

theorem penalty_in_range_db_access (host : String) (db_uid db_gid : Int) (mode : db_mode)
    (id : IdCalls) (sql : SqlCalls) (store : Store) (h : penalty_in_range store) :
    penalty_in_range (db_access host db_uid db_gid mode id sql store).store := by
  rcases db_access_store_cases host db_uid db_gid mode id sql store with hc | hc | hc
  · rw [hc]; exact h
  · rw [hc]; exact penalty_in_range_upsert host store h
  · rw [hc]; exact penalty_in_range_delete host store h

theorem db_access_seq_bad_present (host : String) (db_uid db_gid : Int)
    (calls : List (IdCalls × SqlCalls))
    (hok : ∀ c ∈ calls, drop_ok db_uid db_gid c.1 ∧ sql_ok c.2) :
    ∀ (store : Store) (p : Int), p ≤ 60 → rows_of host store = [(host, p)] →
      rows_of host (db_access_seq host db_uid db_gid .DB_RECORD_BAD calls store) =
        [(host, min (p + calls.length) 60)] := by
  induction calls with
  | nil =>
    intro store p hp h
    simp only [db_access_seq, List.length_nil, Nat.cast_zero, add_zero]
    rw [h, min_eq_left hp]
  | cons c cs ih =>
    intro store p hp h
    have hc := hok c (List.mem_cons_self c cs)
    simp only [db_access_seq, db_access_bad_ok host db_uid db_gid c.1 c.2 store hc.1 hc.2]
    have hrows := rows_of_upsert_present host store p [] h
    simp only [List.map_cons, List.map_nil] at hrows
    rw [ih (fun d hd => hok d (List.mem_cons_of_mem c hd)) _ (min (p + 1) 60)
      (min_le_right _ _) hrows]
    simp only [List.length_cons, Nat.cast_add, Nat.cast_one]
    congr 2
    omega

theorem db_finish_trace_mem (t : Int) (store : Store) (tr : List Event) (ev : Event)
    (h : ev ∈ tr) : ev ∈ (db_finish t store tr).trace := by
  unfold db_finish
  split
  · exact List.mem_append_left _ h
  · exact h

theorem db_access_opens (host : String) (db_uid db_gid : Int) (mode : db_mode)
    (id : IdCalls) (sql : SqlCalls) (store : Store) (hd : drop_ok db_uid db_gid id) :
    Event.db_open (decide (mode = .DB_SLEEP)) ∈
      (db_access host db_uid db_gid mode id sql store).trace := by
  obtain ⟨c1, c2⟩ := drop_conds hd
  have hsingle : ∀ ro : Bool, Event.db_open ro ∈ [Event.db_open ro] := by
    intro ro
    exact List.mem_singleton.2 rfl
  cases mode <;> simp only [db_access, c1, c2, if_false] <;> split_ifs <;>
    first
      | exact hsingle _
      | exact db_finish_trace_mem _ _ _ _ (hsingle _)

theorem db_access_unchecked_uid (host : String) (db_uid db_gid : Int) (mode : db_mode)
    (id : IdCalls) (sql : SqlCalls) (store : Store) (hu : db_uid ≤ 0) (r : Int → Int) :
    db_access host db_uid db_gid mode { id with setuid_dropped := r } sql store =
      db_access host db_uid db_gid mode id sql store := by
  have hn : ¬ db_uid > 0 := by omega
  simp only [db_access, hn, false_and, if_false]

/-! ### The function `main` -/

theorem main_close_wait (e : MainEnv) (store : Store) (h : reaches_inspection e)
    (h8 : e.tcpi_state = 8) :
    main e store =
      { status := 1, store := store,
        trace := (db_access e.host e.db_uid e.db_gid .DB_SLEEP e.gate_id e.gate_sql
          store).trace ++ [.sleep 10] } := by
  obtain ⟨⟨a1, a2, a3, a4⟩, a5, a6⟩ := h
  simp only [main, not_lt.mpr a1, not_lt.mpr a2, not_lt.mpr a3, not_lt.mpr a4,
    not_lt.mpr a5, not_lt.mpr a6, h8, TCP_CLOSE_WAIT, if_false, if_true,
    db_access_sleep_store, DELAY_AFTER_TIMEOUT]

theorem main_exec_iff_fork (e : MainEnv) (store : Store) (h : reaches_inspection e)
    (h8 : e.tcpi_state ≠ 8) :
    Event.exec ∈ (main e store).trace ↔ 0 ≤ e.fork2_pid := by
  obtain ⟨⟨a1, a2, a3, a4⟩, a5, a6⟩ := h
  have hne := db_access_no_exec e.host e.db_uid e.db_gid .DB_SLEEP e.gate_id e.gate_sql store
  by_cases hf : e.fork2_pid < 0
  · have hmain : (main e store).trace =
        (db_access e.host e.db_uid e.db_gid .DB_SLEEP e.gate_id e.gate_sql store).trace := by
      simp only [main, not_lt.mpr a1, not_lt.mpr a2, not_lt.mpr a3, not_lt.mpr a4,
        not_lt.mpr a5, not_lt.mpr a6, h8, TCP_CLOSE_WAIT, hf, if_false, if_true]
    rw [hmain]
    constructor
    · intro hx; exact absurd hx hne
    · intro hx; omega
  · constructor
    · intro _; omega
    · intro _
      simp only [main, not_lt.mpr a1, not_lt.mpr a2, not_lt.mpr a3, not_lt.mpr a4,
        not_lt.mpr a5, not_lt.mpr a6, h8, TCP_CLOSE_WAIT, hf, if_false]
      split_ifs <;> simp

theorem main_healthy (e : MainEnv) (store : Store) (h : healthy e) :
    main e store =
      { status := (db_access e.host e.db_uid e.db_gid
            (verdict_mode e.tcpi_segs_in e.t1_sec e.t2_sec e.tcpi_bytes_acked)
            e.upd_id e.upd_sql store).outcome.status,
        store := (db_access e.host e.db_uid e.db_gid
            (verdict_mode e.tcpi_segs_in e.t1_sec e.t2_sec e.tcpi_bytes_acked)
            e.upd_id e.upd_sql store).store,
        trace := (db_finish (step_select none e.host store).2 store [.db_open true]).trace ++
          [Event.exec] ++
          (db_access e.host e.db_uid e.db_gid
            (verdict_mode e.tcpi_segs_in e.t1_sec e.t2_sec e.tcpi_bytes_acked)
            e.upd_id e.upd_sql store).trace } := by
  obtain ⟨⟨⟨⟨a1, a2, a3, a4⟩, a5, a6⟩, a7, a8, a9, a10, a11, a12⟩, g1, g2, _, _⟩ := h
  simp only [main, not_lt.mpr a1, not_lt.mpr a2, not_lt.mpr a3, not_lt.mpr a4,
    not_lt.mpr a5, not_lt.mpr a6, a7, not_lt.mpr a8, not_lt.mpr a9, not_lt.mpr a10,
    not_lt.mpr a11, not_lt.mpr a12, if_false, db_finish_store,
    db_access_sleep_ok e.host e.db_uid e.db_gid e.gate_id e.gate_sql store g1 g2]

/-! ## The claims -/

/-- C1: whenever `main` reaches its last step, whatever the wait status of the
program it protects, it ends with `db_access` in the mode given by the ordered
list: `DB_RECORD_BAD` if `segments_in < 16`, else `DB_RECORD_GOOD` if
`elapsed_seconds >= 300`, else `DB_RECORD_GOOD` if `bytes_acked >= 4096`, else
`DB_RECORD_BAD`. With 15 segments the mode is `DB_RECORD_BAD` whatever the other
fields; with 16 segments rule 1 does not fire; with at least 16 segments, 300
seconds or 4096 bytes give `DB_RECORD_GOOD`, and 299 seconds with 4095 bytes give
`DB_RECORD_BAD`. -/
theorem main_final_operation_decision_list :
    (∀ (e : MainEnv) (store : Store), reaches_verdict e →
      ∀ w : Int,
        main { e with wstatus := w } store =
          (let gate := db_access e.host e.db_uid e.db_gid .DB_SLEEP e.gate_id e.gate_sql store
           let mode :=
             if e.tcpi_segs_in < 16 then db_mode.DB_RECORD_BAD
             else if e.t2_sec - e.t1_sec ≥ 300 then db_mode.DB_RECORD_GOOD
             else if e.tcpi_bytes_acked ≥ 4096 then db_mode.DB_RECORD_GOOD
             else db_mode.DB_RECORD_BAD
           let upd := db_access e.host e.db_uid e.db_gid mode e.upd_id e.upd_sql store
           { status := upd.outcome.status, store := upd.store,
             trace := gate.trace ++ [Event.exec] ++ upd.trace })) ∧
    (∀ (t1 t2 : Int) (b : Nat), verdict_mode 15 t1 t2 b = .DB_RECORD_BAD) ∧
    (∀ (t1 t2 : Int) (b : Nat), verdict_mode 16 t1 t2 b =
      if t2 - t1 ≥ 300 then .DB_RECORD_GOOD
      else if b ≥ 4096 then .DB_RECORD_GOOD else .DB_RECORD_BAD) ∧
    (∀ (s : Nat) (t1 : Int) (b : Nat), 16 ≤ s →
      verdict_mode s t1 (t1 + 300) b = .DB_RECORD_GOOD) ∧
    (∀ (s : Nat) (t1 t2 : Int), 16 ≤ s → verdict_mode s t1 t2 4096 = .DB_RECORD_GOOD) ∧
    (∀ (s : Nat) (t1 : Int), 16 ≤ s → verdict_mode s t1 (t1 + 299) 4095 = .DB_RECORD_BAD) := by
  refine ⟨?_, ?_, ?_, ?_, ?_, ?_⟩
  · intro e store h w
    obtain ⟨⟨⟨a1, a2, a3, a4⟩, a5, a6⟩, a7, a8, a9, a10, a11, a12⟩ := h
    simp only [main, not_lt.mpr a1, not_lt.mpr a2, not_lt.mpr a3, not_lt.mpr a4,
      not_lt.mpr a5, not_lt.mpr a6, a7, not_lt.mpr a8, not_lt.mpr a9, not_lt.mpr a10,
      not_lt.mpr a11, not_lt.mpr a12, if_false, db_access_sleep_store, verdict_mode,
      GOOD_SEGS_IN_THRESHOLD, GOOD_TIME_THRESHOLD, GOOD_BYTES_THRESHOLD]
  · intro t1 t2 b
    simp [verdict_mode, GOOD_SEGS_IN_THRESHOLD]
  · intro t1 t2 b
    simp [verdict_mode, GOOD_SEGS_IN_THRESHOLD, GOOD_TIME_THRESHOLD, GOOD_BYTES_THRESHOLD]
  · intro s t1 b hs
    simp [verdict_mode, GOOD_SEGS_IN_THRESHOLD, GOOD_TIME_THRESHOLD, not_lt.mpr hs]
  · intro s t1 t2 hs
    simp [verdict_mode, GOOD_SEGS_IN_THRESHOLD, GOOD_BYTES_THRESHOLD, not_lt.mpr hs]
  · intro s t1 hs
    simp [verdict_mode, GOOD_SEGS_IN_THRESHOLD, GOOD_TIME_THRESHOLD, GOOD_BYTES_THRESHOLD,
      not_lt.mpr hs]

/-- Witness of C1: the connection with five segments reaches the last step, and
with wait status 1 of the protected program the run records a penalty. -/
theorem main_final_operation_decision_list_witness :
    reaches_verdict env_five_segments ∧
      main { env_five_segments with wstatus := 1 } [] =
        { status := 0, store := [("1.2.3.4", 1)],
          trace := [.db_open true, .exec, .db_open false] } :=
  ⟨by decide,
    (main_final_operation_decision_list.1 env_five_segments [] (by decide) 1).trans
      (by decide)⟩

/-- C2: starting from a store with no record for `h`, `N >= 1` successive
successful `db_access` calls in mode `DB_RECORD_BAD` leave exactly one record for
`h`, with penalty `min(N, 60)`. One such call appends the record `(h, 1)` when `h`
is absent and replaces the penalty `p` of the record of `h` by `min(p + 1, 60)`
when it is present. -/
theorem record_suspicious_counts_to_cap (host : String) (db_uid db_gid : Int) :
    (∀ (store : Store) (calls : List (IdCalls × SqlCalls)),
      rows_of host store = [] → calls ≠ [] →
      (∀ c ∈ calls, drop_ok db_uid db_gid c.1 ∧ sql_ok c.2) →
      rows_of host (db_access_seq host db_uid db_gid .DB_RECORD_BAD calls store) =
        [(host, min (calls.length : Int) 60)]) ∧
    (∀ (store : Store) (id : IdCalls) (sql : SqlCalls),
      drop_ok db_uid db_gid id → sql_ok sql → rows_of host store = [] →
      (db_access host db_uid db_gid .DB_RECORD_BAD id sql store).store =
        store ++ [(host, 1)]) ∧
    (∀ (store : Store) (id : IdCalls) (sql : SqlCalls) (p : Int),
      drop_ok db_uid db_gid id → sql_ok sql → rows_of host store = [(host, p)] →
      rows_of host (db_access host db_uid db_gid .DB_RECORD_BAD id sql store).store =
        [(host, min (p + 1) 60)]) := by
  refine ⟨?_, ?_, ?_⟩
  · intro store calls habs hne hok
    cases calls with
    | nil => exact absurd rfl hne
    | cons c cs =>
      have hc := hok c (List.mem_cons_self c cs)
      simp only [db_access_seq, db_access_bad_ok host db_uid db_gid c.1 c.2 store hc.1 hc.2,
        sql_upsert_absent host store habs]
      have hrows : rows_of host (store ++ [(host, 1)]) = [(host, 1)] := by
        rw [rows_of_append, habs]
        simp [rows_of]
      rw [db_access_seq_bad_present host db_uid db_gid cs
        (fun d hd => hok d (List.mem_cons_of_mem c hd)) _ 1 (by norm_num) hrows]
      simp only [List.length_cons, Nat.cast_add, Nat.cast_one]
      congr 2
      omega
  · intro store id sql hd hs habs
    rw [db_access_bad_ok host db_uid db_gid id sql store hd hs,
      sql_upsert_absent host store habs]
  · intro store id sql p hd hs hrows
    rw [db_access_bad_ok host db_uid db_gid id sql store hd hs]
    simpa using rows_of_upsert_present host store p [] hrows

/-- Witness of C2: sixty-one suspicious verdicts for a new host stop at 60. -/
theorem record_suspicious_counts_to_cap_witness :
    rows_of "1.2.3.4" (db_access_seq "1.2.3.4" 65534 65534 .DB_RECORD_BAD
        (List.replicate 61 (id_dropping, sql_fine)) [("10.0.0.1", 7)]) =
      [("1.2.3.4", 60)] :=
  (record_suspicious_counts_to_cap "1.2.3.4" 65534 65534).1 [("10.0.0.1", 7)]
    (List.replicate 61 (id_dropping, sql_fine)) (by decide) (by simp)
    (by
      intro c hc
      rw [List.eq_of_mem_replicate hc]
      decide)

/-- C3: one successful `db_access` in mode `DB_RECORD_GOOD` leaves no record
for `h`, whatever penalty `h` had; the SELECT of a later gate then finds no row,
`sleep_time` stays 0 and the gate does not sleep; when `h` had no record the store
is unchanged. -/
theorem record_benign_clears (host : String) (db_uid db_gid : Int) (id : IdCalls)
    (sql : SqlCalls) (store : Store) (hd : drop_ok db_uid db_gid id) (hs : sql_ok sql) :
    rows_of host (db_access host db_uid db_gid .DB_RECORD_GOOD id sql store).store = [] ∧
    step_select none host (db_access host db_uid db_gid .DB_RECORD_GOOD id sql store).store =
      (SQLITE_DONE, 0) ∧
    (∀ (uid gid : Int) (id2 : IdCalls) (sql2 : SqlCalls), drop_ok uid gid id2 → sql_ok sql2 →
      db_access host uid gid .DB_SLEEP id2 sql2
          (db_access host db_uid db_gid .DB_RECORD_GOOD id sql store).store =
        { outcome := .ret 0,
          store := (db_access host db_uid db_gid .DB_RECORD_GOOD id sql store).store,
          trace := [.db_open true] }) ∧
    (rows_of host store = [] →
      (db_access host db_uid db_gid .DB_RECORD_GOOD id sql store).store = store) := by
  rw [db_access_good_ok host db_uid db_gid id sql store hd hs]
  have hnone : sql_select host (sql_delete host store) = none :=
    (sql_select_none_iff host _).2 (rows_of_delete host store)
  have hstep : step_select none host (sql_delete host store) = (SQLITE_DONE, 0) := by
    simp [step_select, hnone]
  refine ⟨rows_of_delete host store, hstep, ?_, sql_delete_absent host store⟩
  intro uid gid id2 sql2 hd2 hs2
  rw [db_access_sleep_ok host uid gid id2 sql2 _ hd2 hs2, hstep]
  simp [db_finish]

/-- Witness of C3: a host at the cap is cleared by one benign verdict. -/
theorem record_benign_clears_witness :
    rows_of "1.2.3.4" (db_access "1.2.3.4" 65534 65534 .DB_RECORD_GOOD id_dropping sql_fine
      [("1.2.3.4", 60), ("10.0.0.1", 7)]).store = [] :=
  (record_benign_clears "1.2.3.4" 65534 65534 id_dropping sql_fine
    [("1.2.3.4", 60), ("10.0.0.1", 7)] (by decide) (by decide)).1

/-- Counterexample to C4: a stored penalty of 4294967301 is an SQLite integer
whose clamp to `[0, 60]` is 60, yet a successful gate read sleeps 5 seconds:
`sqlite3_column_int` keeps its low 32 bits. -/
theorem gate_sleep_not_clamp_of_stored :
    drop_ok 65534 65534 id_dropping ∧ sql_ok sql_fine ∧
    sql_select "1.2.3.4" [("1.2.3.4", 4294967301)] = some 4294967301 ∧
    total_sleep (db_access "1.2.3.4" 65534 65534 .DB_SLEEP id_dropping sql_fine
      [("1.2.3.4", 4294967301)]).trace = 5 ∧
    (min (max (4294967301 : Int) 0) 60).toNat = 60 := by
  decide

/-- C4, amended: a successful gate read (mode `DB_SLEEP`) of a host whose stored
penalty is the integer `v` sleeps `min(max(w, 0), 60)` seconds, where `w` is what
`sqlite3_column_int` makes of `v` (its low 32 bits as a signed int); this is
`min(max(v, 0), 60)` whenever `-2^31 <= v < 2^31`, and it is at most 60 for every
`v`. With no record the gate sleeps 0 seconds, with stored penalty 60 exactly 60
seconds, and the store is unchanged. -/
theorem gate_sleep_clamps_column_int (host : String) (db_uid db_gid : Int) (id : IdCalls)
    (sql : SqlCalls) (store : Store) (hd : drop_ok db_uid db_gid id) (hs : sql_ok sql) :
    (∀ v : Int, sql_select host store = some v →
      total_sleep (db_access host db_uid db_gid .DB_SLEEP id sql store).trace =
        (min (max (sqlite3_column_int v) 0) 60).toNat ∧
      (-2 ^ 31 ≤ v → v < 2 ^ 31 →
        total_sleep (db_access host db_uid db_gid .DB_SLEEP id sql store).trace =
          (min (max v 0) 60).toNat)) ∧
    (sql_select host store = none →
      total_sleep (db_access host db_uid db_gid .DB_SLEEP id sql store).trace = 0) ∧
    (sql_select host store = some 60 →
      total_sleep (db_access host db_uid db_gid .DB_SLEEP id sql store).trace = 60) ∧
    total_sleep (db_access host db_uid db_gid .DB_SLEEP id sql store).trace ≤ 60 ∧
    (db_access host db_uid db_gid .DB_SLEEP id sql store).store = store ∧
    (db_access host db_uid db_gid .DB_SLEEP id sql store).outcome = .ret 0 := by
  rw [db_access_sleep_ok host db_uid db_gid id sql store hd hs]
  have hbase : total_sleep [Event.db_open true] = 0 := rfl
  have hgen : ∀ v : Int, sql_select host store = some v →
      total_sleep (db_finish (step_select none host store).2 store [.db_open true]).trace =
        (min (max (sqlite3_column_int v) 0) 60).toNat := by
    intro v hv
    rw [total_sleep_finish, hbase]
    simp [step_select, hv]
  refine ⟨?_, ?_, ?_, ?_, db_finish_store _ _ _, db_finish_outcome _ _ _⟩
  · intro v hv
    refine ⟨hgen v hv, ?_⟩
    intro h1 h2
    rw [hgen v hv, column_int_of_int32 v h1 h2]
  · intro hnone
    rw [total_sleep_finish, hbase]
    simp [step_select, hnone]
  · intro h60
    rw [hgen 60 h60]
    decide
  · rw [total_sleep_finish, hbase]
    omega

/-- Witness of C4 as amended: stored penalty 61 is read and clamped to 60. -/
theorem gate_sleep_clamps_column_int_witness :
    total_sleep (db_access "1.2.3.4" 65534 65534 .DB_SLEEP id_dropping sql_fine
      [("1.2.3.4", 61)]).trace = (min (max (61 : Int) 0) 60).toNat :=
  ((gate_sleep_clamps_column_int "1.2.3.4" 65534 65534 id_dropping sql_fine
    [("1.2.3.4", 61)] (by decide) (by decide)).1 61 (by decide)).2 (by decide) (by decide)

/-- C5: "every record has a penalty in [1, 60]" holds for the empty store and is
kept by `db_access` for every host, mode and result of the calls it makes; so
every store reached from the empty one by `db_access` calls has every penalty in
`[1, 60]`, none 0, negative or above 60. -/
theorem penalty_range_is_invariant :
    penalty_in_range [] ∧
    (∀ (host : String) (db_uid db_gid : Int) (mode : db_mode) (id : IdCalls) (sql : SqlCalls)
      (store : Store), penalty_in_range store →
      penalty_in_range (db_access host db_uid db_gid mode id sql store).store) ∧
    (∀ calls : List DbCall, ∀ r ∈ db_access_run calls [], r.2 ≠ 0 ∧ 1 ≤ r.2 ∧ r.2 ≤ 60) := by
  have hempty : penalty_in_range [] := by intro r hr; cases hr
  refine ⟨hempty, penalty_in_range_db_access, ?_⟩
  have hrun : ∀ (calls : List DbCall) (store : Store), penalty_in_range store →
      penalty_in_range (db_access_run calls store) := by
    intro calls
    induction calls with
    | nil => intro store h; exact h
    | cons c cs ih =>
      intro store h
      exact ih _ (penalty_in_range_db_access c.host c.db_uid c.db_gid c.mode c.id c.sql store h)
  intro calls r hr
  have := hrun calls [] hempty r hr
  omega

/-- Witness of C5: a record at the cap stays in range under one more suspicious
verdict. -/
theorem penalty_range_is_invariant_witness :
    penalty_in_range [("1.2.3.4", 60)] ∧
      penalty_in_range (db_access "1.2.3.4" 65534 65534 .DB_RECORD_BAD id_dropping sql_fine
        [("1.2.3.4", 60)]).store :=
  ⟨by decide, penalty_range_is_invariant.2.1 "1.2.3.4" 65534 65534 .DB_RECORD_BAD id_dropping
    sql_fine [("1.2.3.4", 60)] (by decide)⟩

/-- C6: once the parent has read the connection state after the gate, whatever
the gate did: if the state is 8 (`TCP_CLOSE_WAIT`) the instance sleeps 10 more
seconds after the gate, exits with status 1, does not execute the protected
program, opens the store read-only at most and leaves it as it was before the run
started; in any other state it goes on to the second `fork`, and the protected
program is executed exactly when that `fork` succeeds. -/
theorem early_close_aborts_without_launch (e : MainEnv) (store : Store)
    (h : reaches_inspection e) :
    (e.tcpi_state = 8 →
      main e store =
        { status := 1, store := store,
          trace := (db_access e.host e.db_uid e.db_gid .DB_SLEEP e.gate_id e.gate_sql
            store).trace ++ [.sleep 10] } ∧
      slept (main e store).trace =
        slept (db_access e.host e.db_uid e.db_gid .DB_SLEEP e.gate_id e.gate_sql
          store).trace ++ [10] ∧
      Event.exec ∉ (main e store).trace ∧
      (∀ ro : Bool, Event.db_open ro ∈ (main e store).trace → ro = true)) ∧
    (e.tcpi_state ≠ 8 → (Event.exec ∈ (main e store).trace ↔ 0 ≤ e.fork2_pid)) := by
  have hne := db_access_no_exec e.host e.db_uid e.db_gid .DB_SLEEP e.gate_id e.gate_sql store
  constructor
  · intro h8
    have hmain := main_close_wait e store h h8
    refine ⟨hmain, ?_, ?_, ?_⟩
    · rw [hmain]
      simp [slept_append, slept]
    · rw [hmain]
      simpa using hne
    · rw [hmain]
      intro ro hro
      simp only [List.mem_append, List.mem_singleton, reduceCtorEq, or_false] at hro
      rcases db_access_trace_events e.host e.db_uid e.db_gid .DB_SLEEP e.gate_id e.gate_sql
        store _ hro with ⟨n, hn⟩ | hn
      · cases hn
      · simpa using hn
  · exact main_exec_iff_fork e store h

/-- Witness of C6: host with penalty 3 whose peer half-closes during the gate:
3 and then 10 seconds of sleep, status 1, no launch, penalty still 3. -/
theorem early_close_aborts_without_launch_witness :
    reaches_inspection { env_five_segments with tcpi_state := 8 } ∧
      main { env_five_segments with tcpi_state := 8 } [("1.2.3.4", 3)] =
        { status := 1, store := [("1.2.3.4", 3)],
          trace := [.db_open true, .sleep 3, .sleep 10] } :=
  ⟨by decide,
    ((early_close_aborts_without_launch { env_five_segments with tcpi_state := 8 }
      [("1.2.3.4", 3)] (by decide)).1 (by decide)).1.trans (by decide)⟩

/-- Counterexample to C7: with target uid 0, `setgid` and `setuid` succeed and
`setuid (0)` would succeed again afterwards, yet `db_access` returns 0 after
opening the store and writing to it. -/
theorem uid_zero_store_written_though_root_kept :
    0 ≤ id_root.setgid 0 ∧ 0 ≤ id_root.setuid 0 ∧ id_root.setuid_dropped 0 = 0 ∧
    db_access "1.2.3.4" 0 0 .DB_RECORD_BAD id_root sql_fine [] =
      { outcome := .ret 0, store := [("1.2.3.4", 1)], trace := [.db_open false] } := by
  decide

/-- C7, amended: for every mode, target uid and gid and every result of the
identity calls, `db_access` opens or changes the store only when `setgid` and then
`setuid` succeeded and, if the target uid is greater than 0, `setuid (0)` failed
afterwards. If a drop fails, or the target uid is greater than 0 and `setuid (0)`
succeeds after the drop, `db_access` returns 1 without opening or changing the
store. For a target uid that is not greater than 0 the check is not made: once
both drops have succeeded `db_access` opens the store, and what it does is the
same whatever `setuid (0)` would return afterwards. -/
theorem store_operation_only_after_checked_drop (host : String) (db_uid db_gid : Int)
    (mode : db_mode) (id : IdCalls) (sql : SqlCalls) (store : Store) :
    (((∃ ro, Event.db_open ro ∈ (db_access host db_uid db_gid mode id sql store).trace) ∨
        (db_access host db_uid db_gid mode id sql store).store ≠ store) →
      0 ≤ id.setgid db_gid ∧ 0 ≤ id.setuid db_uid ∧
        (0 < db_uid → id.setuid_dropped 0 ≠ 0)) ∧
    ((id.setgid db_gid < 0 ∨ id.setuid db_uid < 0 ∨
        (0 < db_uid ∧ id.setuid_dropped 0 = 0)) →
      (db_access host db_uid db_gid mode id sql store).outcome = .ret 1 ∧
      (db_access host db_uid db_gid mode id sql store).store = store ∧
      ∀ ro, Event.db_open ro ∉ (db_access host db_uid db_gid mode id sql store).trace) ∧
    (db_uid ≤ 0 → 0 ≤ id.setgid db_gid → 0 ≤ id.setuid db_uid →
      Event.db_open (decide (mode = .DB_SLEEP)) ∈
        (db_access host db_uid db_gid mode id sql store).trace ∧
      ∀ r : Int → Int,
        db_access host db_uid db_gid mode { id with setuid_dropped := r } sql store =
          db_access host db_uid db_gid mode id sql store) := by
  have hfail : (id.setgid db_gid < 0 ∨ id.setuid db_uid < 0 ∨
        (0 < db_uid ∧ id.setuid_dropped 0 = 0)) →
      (db_access host db_uid db_gid mode id sql store).outcome = .ret 1 ∧
      (db_access host db_uid db_gid mode id sql store).store = store ∧
      ∀ ro, Event.db_open ro ∉ (db_access host db_uid db_gid mode id sql store).trace := by
    intro h
    rw [db_access_drop_failed host db_uid db_gid mode id sql store h]
    refine ⟨rfl, rfl, ?_⟩
    intro ro
    split <;> simp
  refine ⟨?_, hfail, ?_⟩
  · intro hop
    by_contra hc
    have hbad := (not_drop_ok_iff db_uid db_gid id).1 hc
    obtain ⟨_, hst, hno⟩ := hfail hbad
    rcases hop with ⟨ro, hro⟩ | hne
    · exact hno ro hro
    · exact hne hst
  · intro hu hg hs
    have hd : drop_ok db_uid db_gid id := ⟨hg, hs, fun hpos => absurd hpos (by omega)⟩
    exact ⟨db_access_opens host db_uid db_gid mode id sql store hd,
      db_access_unchecked_uid host db_uid db_gid mode id sql store hu⟩

/-- Witness of C7 as amended: an ordinary target uid whose drop can be undone. -/
theorem store_operation_only_after_checked_drop_witness :
    (db_access "1.2.3.4" 65534 65534 .DB_RECORD_BAD id_root sql_fine []).outcome = .ret 1 ∧
    (db_access "1.2.3.4" 65534 65534 .DB_RECORD_BAD id_root sql_fine []).store = [] ∧
    ∀ ro, Event.db_open ro ∉
      (db_access "1.2.3.4" 65534 65534 .DB_RECORD_BAD id_root sql_fine []).trace :=
  (store_operation_only_after_checked_drop "1.2.3.4" 65534 65534 .DB_RECORD_BAD id_root
    sql_fine []).2.1 (by decide)

/-- Counterexample to C9: when the drop fails the gate sleeps 30 seconds, less
than the 60 seconds it sleeps after a successful read of a stored penalty 60. -/
theorem punitive_delay_below_worst_case :
    ¬ drop_ok 65534 65534 id_denied ∧
    total_sleep (db_access "1.2.3.4" 65534 65534 .DB_SLEEP id_denied sql_fine
      [("1.2.3.4", 60)]).trace = 30 ∧
    drop_ok 65534 65534 id_dropping ∧ sql_ok sql_fine ∧
    total_sleep (db_access "1.2.3.4" 65534 65534 .DB_SLEEP id_dropping sql_fine
      [("1.2.3.4", 60)]).trace = 60 := by
  decide

/-- C9, amended: when the privilege drop or its irreversibility check fails,
the side effect depends only on the mode. In mode `DB_SLEEP` `db_access` sleeps
one fixed 30 seconds (`SLEEP_FOR_ERROR`), the same for every host and store
content: at least as long as the delay after a successful read of any stored
penalty whose value read is at most 30, and shorter than the delay, of up to 60
seconds, after a successful read of a larger one. In modes `DB_RECORD_BAD` and
`DB_RECORD_GOOD` it does not sleep. In every mode it returns 1, without calling
`exit`, without opening the store and leaving it unchanged. -/
theorem drop_failure_side_effects (host : String) (db_uid db_gid : Int) (id : IdCalls)
    (sql : SqlCalls) (store : Store) (hfail : ¬ drop_ok db_uid db_gid id) :
    db_access host db_uid db_gid .DB_SLEEP id sql store =
      { outcome := .ret 1, store := store, trace := [.sleep 30] } ∧
    db_access host db_uid db_gid .DB_RECORD_BAD id sql store =
      { outcome := .ret 1, store := store, trace := [] } ∧
    db_access host db_uid db_gid .DB_RECORD_GOOD id sql store =
      { outcome := .ret 1, store := store, trace := [] } ∧
    (∀ (h2 : String) (s2 : Store) (id2 : IdCalls) (sql2 : SqlCalls) (v : Int),
      drop_ok db_uid db_gid id2 → sql_ok sql2 → sql_select h2 s2 = some v →
      sqlite3_column_int v ≤ 30 →
      total_sleep (db_access h2 db_uid db_gid .DB_SLEEP id2 sql2 s2).trace ≤
        total_sleep (db_access host db_uid db_gid .DB_SLEEP id sql store).trace) ∧
    (∀ (h2 : String) (s2 : Store) (id2 : IdCalls) (sql2 : SqlCalls) (v : Int),
      drop_ok db_uid db_gid id2 → sql_ok sql2 → sql_select h2 s2 = some v →
      30 < sqlite3_column_int v →
      total_sleep (db_access host db_uid db_gid .DB_SLEEP id sql store).trace <
        total_sleep (db_access h2 db_uid db_gid .DB_SLEEP id2 sql2 s2).trace ∧
      total_sleep (db_access h2 db_uid db_gid .DB_SLEEP id2 sql2 s2).trace =
        (min (sqlite3_column_int v) 60).toNat ∧
      (60 ≤ sqlite3_column_int v →
        total_sleep (db_access h2 db_uid db_gid .DB_SLEEP id2 sql2 s2).trace = 60)) := by
  have hbad := (not_drop_ok_iff db_uid db_gid id).1 hfail
  have hs := db_access_drop_failed host db_uid db_gid .DB_SLEEP id sql store hbad
  have hb := db_access_drop_failed host db_uid db_gid .DB_RECORD_BAD id sql store hbad
  have hgd := db_access_drop_failed host db_uid db_gid .DB_RECORD_GOOD id sql store hbad
  simp only [if_true, reduceCtorEq, if_false] at hs hb hgd
  have h30 : total_sleep [Event.sleep 30] = 30 := rfl
  have h0 : total_sleep [Event.db_open true] = 0 := rfl
  refine ⟨hs, hb, hgd, ?_, ?_⟩
  · intro h2 s2 id2 sql2 v hd2 hs2 hv hle
    rw [hs, db_access_sleep_ok h2 db_uid db_gid id2 sql2 s2 hd2 hs2, total_sleep_finish]
    have hst : (step_select none h2 s2).2 = sqlite3_column_int v := by
      simp [step_select, hv]
    rw [h30, h0, hst]
    omega
  · intro h2 s2 id2 sql2 v hd2 hs2 hv hgt
    rw [hs, db_access_sleep_ok h2 db_uid db_gid id2 sql2 s2 hd2 hs2, total_sleep_finish]
    have hst : (step_select none h2 s2).2 = sqlite3_column_int v := by
      simp [step_select, hv]
    rw [h30, h0, hst]
    refine ⟨by omega, by omega, ?_⟩
    intro h60
    omega

/-- Witness of C9 as amended: `setgid` is refused. -/
theorem drop_failure_side_effects_witness :
    db_access "1.2.3.4" 65534 65534 .DB_SLEEP id_denied sql_fine [("1.2.3.4", 60)] =
      { outcome := .ret 1, store := [("1.2.3.4", 60)], trace := [.sleep 30] } :=
  (drop_failure_side_effects "1.2.3.4" 65534 65534 id_denied sql_fine [("1.2.3.4", 60)]
    (by decide)).1

/-- Counterexample to C10: after a first connection with 5 segments from an
unknown host, the gate of the second connection sleeps 1 second, not 2: it reads
the penalty 1 left by the first instance, and the penalty becomes 2 only when the
second instance ends. -/
theorem second_gate_sleeps_one_second :
    healthy env_five_segments ∧ rows_of "1.2.3.4" [] = [] ∧
    main env_five_segments [] =
      { status := 0, store := [("1.2.3.4", 1)],
        trace := [.db_open true, .exec, .db_open false] } ∧
    main env_five_segments (main env_five_segments []).store =
      { status := 0, store := [("1.2.3.4", 2)],
        trace := [.db_open true, .sleep 1, .exec, .db_open false] } := by
  decide

/-- C10, amended: for a host `h` with no stored record, two instances for `h` run
one after the other, each seeing 5 segments, the peer not half-closed and every
call, privilege drop and store operation succeeding: the first chooses
`DB_RECORD_BAD` and leaves the stored records followed by `(h, 1)`; the second
leaves them followed by `(h, 2)`, and its gate, which reads the penalty 1 left by
the first, sleeps 1 second before the protected program is executed. -/
theorem two_suspicious_connections (h : String) (store : Store) (e1 e2 : MainEnv)
    (habs : rows_of h store = []) (h1 : healthy e1) (h2 : healthy e2)
    (hh1 : e1.host = h) (hh2 : e2.host = h)
    (hs1 : e1.tcpi_segs_in = 5) (hs2 : e2.tcpi_segs_in = 5) :
    verdict_mode e1.tcpi_segs_in e1.t1_sec e1.t2_sec e1.tcpi_bytes_acked = .DB_RECORD_BAD ∧
    main e1 store =
      { status := 0, store := store ++ [(h, 1)],
        trace := [.db_open true, .exec, .db_open false] } ∧
    main e2 (main e1 store).store =
      { status := 0, store := store ++ [(h, 2)],
        trace := [.db_open true, .sleep 1, .exec, .db_open false] } ∧
    rows_of h (main e2 (main e1 store).store).store = [(h, 2)] := by
  have hv1 : verdict_mode e1.tcpi_segs_in e1.t1_sec e1.t2_sec e1.tcpi_bytes_acked =
      .DB_RECORD_BAD := by
    simp [verdict_mode, hs1, GOOD_SEGS_IN_THRESHOLD]
  have hv2 : verdict_mode e2.tcpi_segs_in e2.t1_sec e2.t2_sec e2.tcpi_bytes_acked =
      .DB_RECORD_BAD := by
    simp [verdict_mode, hs2, GOOD_SEGS_IN_THRESHOLD]
  have hsel1 : sql_select h store = none := (sql_select_none_iff h store).2 habs
  have hrows1 : rows_of h (store ++ [(h, 1)]) = [(h, 1)] := by
    rw [rows_of_append, habs]
    simp [rows_of]
  have hsel2 : sql_select h (store ++ [(h, 1)]) = some 1 :=
    sql_select_of_rows h _ 1 [] hrows1
  have hm1 : main e1 store =
      { status := 0, store := store ++ [(h, 1)],
        trace := [.db_open true, .exec, .db_open false] } := by
    rw [main_healthy e1 store h1, hv1,
      db_access_bad_ok e1.host e1.db_uid e1.db_gid e1.upd_id e1.upd_sql store h1.2.2.2.1
        h1.2.2.2.2, hh1, sql_upsert_absent h store habs]
    simp [step_select, hsel1, db_finish, Outcome.status]
  have hm2 : main e2 (store ++ [(h, 1)]) =
      { status := 0, store := store ++ [(h, 2)],
        trace := [.db_open true, .sleep 1, .exec, .db_open false] } := by
    rw [main_healthy e2 _ h2, hv2,
      db_access_bad_ok e2.host e2.db_uid e2.db_gid e2.upd_id e2.upd_sql _ h2.2.2.2.1
        h2.2.2.2.2, hh2, sql_upsert_append_single h store 1 habs]
    simp [step_select, hsel2, db_finish, Outcome.status, sqlite3_column_int,
      MAX_SLEEP_TIME_VAL]
  refine ⟨hv1, hm1, ?_, ?_⟩
  · rw [hm1]; exact hm2
  · rw [hm1, hm2, rows_of_append, habs]
    simp [rows_of]

/-- Witness of C10 as amended: host `1.2.3.4`, unknown to a store that knows
another host. -/
theorem two_suspicious_connections_witness :
    main env_five_segments (main env_five_segments [("10.0.0.1", 7)]).store =
      { status := 0, store := [("10.0.0.1", 7), ("1.2.3.4", 2)],
        trace := [.db_open true, .sleep 1, .exec, .db_open false] } :=
  (two_suspicious_connections "1.2.3.4" [("10.0.0.1", 7)] env_five_segments env_five_segments
    (by decide) (by decide) (by decide) rfl rfl rfl rfl).2.2.1

end Delayer
